import Mathlib

/-!
Verification of the BN_core resilience/self-update subsystem.

The development shallowly embeds the persistence, lock-lifecycle and
update-pipeline logic of the two source files `bn.py` and `Bn.py`.
Python strings (and byte strings, which the sources only ever treat as
UTF-8 text) are modelled as lists of characters so that every helper is
structurally recursive and kernel-evaluable on concrete inputs.
-/

namespace BN

/-- Model of a Python `str` / decoded `bytes` value. -/
abbrev PyStr := List Char

/-- Model of Python `s.split(sep)` for a one-character separator:
always returns at least one (possibly empty) piece. -/
def splitOnChar (sep : Char) : PyStr → List PyStr
  | [] => [[]]
  | c :: cs =>
    match splitOnChar sep cs with
    | [] => [[]]
    | h :: t => if c = sep then [] :: h :: t else (c :: h) :: t

/-- Model of Python `s.split(sep, 1)` (at most one split, at the first
occurrence of the one-character separator). -/
def pySplit1 (sep : Char) : PyStr → List PyStr
  | [] => [[]]
  | c :: cs => if c = sep then [[], cs] else
    match pySplit1 sep cs with
    | [] => [[c]]
    | h :: t => (c :: h) :: t

/-- Model of Python `sub in s` (substring containment). -/
def containsSub (sub : PyStr) : PyStr → Bool
  | [] => sub.isEmpty
  | c :: cs => sub.isPrefixOf (c :: cs) || containsSub sub cs

/-- Model of Python `s.strip()`: remove leading and trailing whitespace. -/
def trimWs (s : PyStr) : PyStr :=
  ((s.dropWhile Char.isWhitespace).reverse.dropWhile Char.isWhitespace).reverse

/-- Accumulating decimal value of a digit run; `none` on the first
non-digit character. -/
def digitsValAux (acc : Nat) : List Char → Option Nat
  | [] => some acc
  | c :: cs =>
    if c.isDigit then digitsValAux (acc * 10 + (c.toNat - 48)) cs else none

/-- Model of Python `int(s)` on a text field: strip whitespace, optional
sign, then a non-empty run of decimal digits; any other shape raises,
modelled as `none`.  (Numeric-underscore literals are not modelled; no
claim exercises them.) -/
def pyInt (s : PyStr) : Option Int :=
  match trimWs s with
  | [] => none
  | d :: ds =>
    if d = '-' then
      match ds with
      | [] => none
      | _ :: _ => (digitsValAux 0 ds).map (fun n => -(n : Int))
    else if d = '+' then
      match ds with
      | [] => none
      | _ :: _ => (digitsValAux 0 ds).map (fun n => (n : Int))
    else (digitsValAux 0 (d :: ds)).map (fun n => (n : Int))

/-- Python tuple comparison `a > b` on integer tuples: lexicographic,
with a longer tuple beating its proper prefix. -/
def pyListGt : List Int → List Int → Bool
  | [], _ => false
  | _ :: _, [] => true
  | x :: xs, y :: ys => if y < x then true else if x < y then false else pyListGt xs ys

/-- `version_tuple` from `bn.py`: `tuple(int(x) for x in v.split("."))`,
falling back to `(0,)` if any component fails to parse. -/
def version_tuple (v : PyStr) : List Int :=
  match (splitOnChar '.' v).mapM pyInt with
  | some l => l
  | none => [0]

/-- `version_gt` from `bn.py`: `version_tuple(a) > version_tuple(b)`. -/
def version_gt (a b : PyStr) : Bool :=
  pyListGt (version_tuple a) (version_tuple b)

theorem pyListGt_irrefl : ∀ l : List Int, pyListGt l l = false := by
  intro l
  induction l with
  | nil => rfl
  | cons x xs ih => simp [pyListGt, ih]

theorem pyListGt_asymm :
    ∀ x y : List Int, pyListGt x y = true → pyListGt y x = false := by
  intro x
  induction x with
  | nil => intro y h; cases y <;> simp [pyListGt] at h ⊢
  | cons a xs ih =>
    intro y h
    cases y with
    | nil => simp [pyListGt]
    | cons b ys =>
      simp only [pyListGt] at h ⊢
      by_cases hba : b < a
      · have : ¬ a < b := by omega
        simp [hba, this]
      · by_cases hab : a < b
        · simp [hba, hab] at h
        · simp only [hba, if_false, hab] at h
          have : ¬ b < a := hba
          simp [hab, this, ih ys h]

theorem pyListGt_trans :
    ∀ x y z : List Int, pyListGt x y = true → pyListGt y z = true →
      pyListGt x z = true := by
  intro x
  induction x with
  | nil => intro y z h; simp [pyListGt] at h
  | cons a xs ih =>
    intro y z h1 h2
    cases y with
    | nil => simp [pyListGt] at h2
    | cons b ys =>
      cases z with
      | nil => simp [pyListGt]
      | cons c zs =>
        simp only [pyListGt] at h1 h2 ⊢
        by_cases hba : b < a
        · by_cases hcb : c < b
          · have hca : c < a := by omega
            simp [hca]
          · by_cases hbc : b < c
            · simp [hcb, hbc] at h2
            · have hca : c < a := by omega
              simp [hca]
        · by_cases hab : a < b
          · simp [hba, hab] at h1
          · have hab' : a = b := by omega
            by_cases hcb : c < b
            · have hca : c < a := by omega
              simp [hca]
            · by_cases hbc : b < c
              · simp [hcb, hbc] at h2
              · have h1' : pyListGt xs ys = true := by simpa [hba, hab] using h1
                have h2' : pyListGt ys zs = true := by simpa [hcb, hbc] using h2
                have hca : ¬ c < a := by omega
                have hac : ¬ a < c := by omega
                simp [hca, hac, ih ys zs h1' h2']

theorem pyListGt_trichotomy :
    ∀ x y : List Int, x = y ∨ pyListGt x y = true ∨ pyListGt y x = true := by
  intro x
  induction x with
  | nil =>
    intro y
    cases y with
    | nil => left; rfl
    | cons b ys => right; right; simp [pyListGt]
  | cons a xs ih =>
    intro y
    cases y with
    | nil => right; left; simp [pyListGt]
    | cons b ys =>
      by_cases hba : b < a
      · right; left; simp [pyListGt, hba]
      · by_cases hab : a < b
        · right; right; simp [pyListGt, hab]
        · have hab' : a = b := by omega
          subst hab'
          rcases ih ys with h | h | h
          · left; rw [h]
          · right; left; simp [pyListGt, h]
          · right; right; simp [pyListGt, h]

/-- C6: version comparison is the strict part of a total order on
dotted-integer tuples, compared component by component:
`version_gt "14.5" "14.10"` is false, `version_gt "14.10" "14.5"` is
true, and `version_gt v v` is false for every string `v`; the underlying
tuple order is irreflexive, asymmetric, transitive and trichotomous. -/
theorem C6_version_total_order :
    version_gt "14.5".data "14.10".data = false
  ∧ version_gt "14.10".data "14.5".data = true
  ∧ (∀ v : PyStr, version_gt v v = false)
  ∧ (∀ x y : List Int, pyListGt x y = true → pyListGt y x = false)
  ∧ (∀ x y z : List Int, pyListGt x y = true → pyListGt y z = true →
       pyListGt x z = true)
  ∧ (∀ x y : List Int, x = y ∨ pyListGt x y = true ∨ pyListGt y x = true) := by
  refine ⟨by decide, by decide, ?_, pyListGt_asymm, pyListGt_trans,
    pyListGt_trichotomy⟩
  intro v
  simp [version_gt, pyListGt_irrefl]

/-- Witness for C6: the quantified parts applied at concrete inputs. -/
theorem C6_version_total_order_witness :
    version_gt "9.9".data "9.9".data = false
  ∧ pyListGt [14, 5] [14, 10] = false := by
  refine ⟨C6_version_total_order.2.2.1 "9.9".data, ?_⟩
  exact C6_version_total_order.2.2.2.1 [14, 10] [14, 5] (by decide)

/-! ## Update pipeline (`bn.py`: `parse_version`, `extract_signature_line`,
`safe_update`) -/

/-- Splitting on a multi-character separator, fuelled so that every call
is structurally recursive (the fuel is an upper bound on the string
length, so it never runs out on the entry point below). -/
def splitOnStrAux (sep : PyStr) : Nat → PyStr → List PyStr
  | _, [] => [[]]
  | 0, s => [s]
  | fuel + 1, c :: cs =>
    if sep ≠ [] ∧ sep.isPrefixOf (c :: cs) then
      [] :: splitOnStrAux sep fuel (List.drop sep.length (c :: cs))
    else
      match splitOnStrAux sep fuel cs with
      | [] => [[c]]
      | h :: t => (c :: h) :: t

/-- Model of Python `s.split(sep)` for a non-empty separator string. -/
def splitOnStr (sep s : PyStr) : List PyStr :=
  splitOnStrAux sep (s.length + 1) s

/-- The version-declaration marker `"BN version:"`. -/
def verMarker : PyStr := "BN version:".data

/-- The entry-point marker `"def main()"` required by format validation. -/
def mainMarker : PyStr := "def main()".data

/-- The signature header `"Nova-Signature"` (`SIGNATURE_HEADER`). -/
def sigHeader : PyStr := "Nova-Signature".data

/-- `parse_version` from `bn.py`: scan the first 30 lines for one
containing `"BN version:"` and return the stripped text after the last
occurrence of the marker on that line (`line.split("BN version:")[-1]
.strip()`); `""` if no line matches. -/
def parse_version (text : PyStr) : PyStr :=
  match ((splitOnChar '\n' text).take 30).find? (fun l => containsSub verMarker l) with
  | some line => trimWs ((splitOnStr verMarker line).getLastD [])
  | none => []

/-- `extract_signature_line` from `bn.py`: scan the first 60 lines for
one containing the header and return `line.split(":", 1)[-1].strip()`. -/
def extract_signature_line (text : PyStr) (header : PyStr := sigHeader) :
    Option PyStr :=
  (((splitOnChar '\n' text).take 60).find? (fun l => containsSub header l)).map
    (fun line => trimWs ((pySplit1 ':' line).getLastD []))

/-- Python truthiness test `not x` for an optional string: true exactly
on `None` and `""`. -/
def pyFalsyStr : Option PyStr → Bool
  | none => true
  | some s => s.isEmpty

/-- The installed artifact (`target_path`, normally `bn.py`) and the
backup artifact (`backup_path`, normally `bn_prev.py`); `none` means the
file does not exist. -/
structure UpdFS where
  target : Option PyStr
  backup : Option PyStr
deriving DecidableEq

/-- Fault injection for the swap step of `safe_update`: which of the
file operations inside the `try` block raises (if executed), and how
the final `shutil.move` behaves.  The temporary file is a
`NamedTemporaryFile` with no `dir=`, so it lives in the system temp
directory; `shutil.move` first tries `os.rename` (atomic), but on any
`OSError` — notably `EXDEV` when the temp directory is on a different
filesystem than the target — it falls back to `copy2`-then-unlink,
which truncates the target and rewrites it non-atomically.
`moveFallbackFail k` is that fallback failing after `k` characters of
the candidate were written (`k = 0`: at or right after the truncating
open). -/
inductive SwapFault
  | ok
  | tmpWriteFail
  | backupCopyFail
  | moveFallbackOk
  | moveFallbackFail (k : Nat)
deriving DecidableEq

/-- The distinct result strings returned by `safe_update`, one
constructor per `return` statement:
`fetchError` = `f"fetch error: {e}"`, `rejectNotBN` = `"reject: not a BN
file"`, `rejectMissingVersion` = `"reject: missing version"`, `upToDate
r l` = `f"up-to-date (remote {r} <= local {l})"`, `rejectMissingSig` =
`"reject: missing Nova-Signature"`, `rejectNoKey` = `"reject: nova_key
not set ..."`, `rejectSigMismatch` = `"reject: signature mismatch"`,
`swapError` = `f"write/swap error: {e}"`, `updated v` = `f"updated to
{v} (sha256 ...)"`. -/
inductive UpdResult
  | fetchError
  | rejectNotBN
  | rejectMissingVersion
  | upToDate (remote localVer : PyStr)
  | rejectMissingSig
  | rejectNoKey
  | rejectSigMismatch
  | swapError
  | updated (ver : PyStr)
deriving DecidableEq

/-- The signature gate of `safe_update` (executed only when
`SIGNATURE_REQUIRED`): `none` means the gate passes, `some r` is the
rejection returned.  `hmacHex` models `hmac_hex` (the HMAC-SHA-256 hex
digest of the full candidate bytes under the key); `novaKey` is
`_mem.get("nova_key")` (`none` also covers `_mem is None`).
`hmac.compare_digest` is a constant-time string equality, modelled as
equality (timing is outside the embedding). -/
def signature_gate (hmacHex : PyStr → PyStr → PyStr) (novaKey : Option PyStr)
    (text : PyStr) : Option UpdResult :=
  let sigLine := extract_signature_line text
  if pyFalsyStr sigLine then some .rejectMissingSig
  else if pyFalsyStr novaKey then some .rejectNoKey
  else if sigLine.getD [] = hmacHex text (novaKey.getD []) then none
  else some .rejectSigMismatch

/-- The swap block of `safe_update`: write the candidate to a flushed
temporary file in the system temp directory; if the target exists,
`shutil.copy2` it to the backup path; then `shutil.move(tmp.name,
target_path)`.  On the rename path (`ok`) the replacement is atomic;
on the cross-device fallback the target is truncated and rewritten, so
a fallback failure leaves the target holding the first `k` characters
of the candidate (`List.take` caps `k` at the candidate length,
covering a fully written copy whose `copystat`/unlink then raised).
A raised operation lands in the `except` handler, which returns the
error string with no further file operations. -/
def do_swap (remoteVer text : PyStr) (fault : SwapFault) (fs : UpdFS) :
    UpdResult × UpdFS :=
  match fault with
  | .tmpWriteFail => (.swapError, fs)
  | .backupCopyFail =>
    match fs.target with
    | some _ => (.swapError, fs)
    | none => (.updated remoteVer, { fs with target := some text })
  | .moveFallbackFail k =>
    match fs.target with
    | some old =>
      (.swapError, { target := some (text.take k), backup := some old })
    | none => (.swapError, { fs with target := some (text.take k) })
  | .moveFallbackOk =>
    match fs.target with
    | some old =>
      (.updated remoteVer, { target := some text, backup := some old })
    | none => (.updated remoteVer, { fs with target := some text })
  | .ok =>
    match fs.target with
    | some old =>
      (.updated remoteVer, { target := some text, backup := some old })
    | none => (.updated remoteVer, { fs with target := some text })

/-- `safe_update` from `bn.py`.  Parameters model the ambient state the
function reads: `sigRequired` is `SIGNATURE_REQUIRED`; `fetched` is the
result of `fetch_raw` (`none` = transport error; the candidate bytes
and their `errors="replace"` decoding are identified, as every
candidate the source handles is UTF-8 text); `fault` injects a failure
into the swap's file operations, including the non-atomic cross-device
fallback of the final `shutil.move` (see `SwapFault` and `do_swap`). -/
def safe_update (sigRequired : Bool) (hmacHex : PyStr → PyStr → PyStr)
    (novaKey : Option PyStr) (fetched : Option PyStr)
    (currentVersion : PyStr) (fault : SwapFault) (fs : UpdFS) :
    UpdResult × UpdFS :=
  match fetched with
  | none => (.fetchError, fs)
  | some text =>
    if ¬ (containsSub verMarker text && containsSub mainMarker text) then
      (.rejectNotBN, fs)
    else
      let remoteVer := parse_version text
      if remoteVer.isEmpty then (.rejectMissingVersion, fs)
      else if ¬ version_gt remoteVer currentVersion then
        (.upToDate remoteVer currentVersion, fs)
      else
        match (if sigRequired then signature_gate hmacHex novaKey text else none) with
        | some r => (r, fs)
        | none => do_swap remoteVer text fault fs

theorem signature_gate_none_iff (hmacHex : PyStr → PyStr → PyStr)
    (novaKey : Option PyStr) (text : PyStr) :
    signature_gate hmacHex novaKey text = none ↔
      ∃ s k, extract_signature_line text = some s ∧ s ≠ [] ∧
        novaKey = some k ∧ k ≠ [] ∧ s = hmacHex text k := by
  unfold signature_gate
  cases hsl : extract_signature_line text with
  | none => simp [pyFalsyStr]
  | some s =>
    by_cases hs : s = []
    · subst hs; simp [pyFalsyStr]
    · cases novaKey with
      | none => simp [pyFalsyStr, List.isEmpty_iff, hs]
      | some k =>
        by_cases hk : k = []
        · subst hk; simp [pyFalsyStr, List.isEmpty_iff, hs]
        · by_cases heq : s = hmacHex text k
          · simp [pyFalsyStr, List.isEmpty_iff, hs, hk, heq]
          · simp [pyFalsyStr, List.isEmpty_iff, hs, hk, heq]

theorem signature_gate_ne_updated (hmacHex : PyStr → PyStr → PyStr)
    (novaKey : Option PyStr) (text v : PyStr) :
    signature_gate hmacHex novaKey text ≠ some (.updated v) := by
  unfold signature_gate
  by_cases h1 : pyFalsyStr (extract_signature_line text) = true
  · simp [h1]
  · by_cases h2 : pyFalsyStr novaKey = true
    · simp [h1, h2]
    · by_cases h3 : (extract_signature_line text).getD []
          = hmacHex text (novaKey.getD [])
      · simp [h1, h2, h3]
      · simp [h1, h2, h3]

/-- C2: with signature enforcement on, `safe_update` installs a
candidate only if it carries a signature line equal to the HMAC of the
full candidate bytes under the configured key; a candidate whose
signature line is missing or empty, whose key is unset, or whose
declared signature differs from the HMAC of its (possibly tampered)
bytes is never installed and leaves both artifact paths unchanged,
regardless of declared version. -/
theorem C2_signature_gate (hmacHex : PyStr → PyStr → PyStr)
    (novaKey : Option PyStr) (text currentVersion : PyStr)
    (fault : SwapFault) (fs : UpdFS) :
    (∀ v, (safe_update true hmacHex novaKey (some text) currentVersion fault fs).1
        = UpdResult.updated v →
      ∃ s k, extract_signature_line text = some s ∧ s ≠ [] ∧
        novaKey = some k ∧ k ≠ [] ∧ s = hmacHex text k)
  ∧ ((pyFalsyStr (extract_signature_line text) = true
        ∨ pyFalsyStr novaKey = true
        ∨ (extract_signature_line text).getD [] ≠
            hmacHex text (novaKey.getD [])) →
      (∀ v, (safe_update true hmacHex novaKey (some text) currentVersion fault fs).1
          ≠ UpdResult.updated v)
      ∧ (safe_update true hmacHex novaKey (some text) currentVersion fault fs).2
          = fs) := by
  have hgate : signature_gate hmacHex novaKey text = none ∨
      ∃ r, signature_gate hmacHex novaKey text = some r := by
    cases signature_gate hmacHex novaKey text with
    | none => exact Or.inl rfl
    | some r => exact Or.inr ⟨r, rfl⟩
  constructor
  · intro v hv
    unfold safe_update at hv
    simp only [if_true] at hv
    split at hv
    · simp at hv
    · split at hv
      · simp at hv
      · split at hv
        · simp at hv
        · split at hv
          · rename_i r hr
            simp only at hv
            have : (r, fs).1 = UpdResult.updated v := hv
            simp only at this
            subst this
            exact absurd hr (signature_gate_ne_updated hmacHex novaKey text v)
          · rename_i hr
            exact (signature_gate_none_iff hmacHex novaKey text).mp hr
  · intro hbad
    have hne : signature_gate hmacHex novaKey text ≠ none := by
      intro hnone
      rcases (signature_gate_none_iff hmacHex novaKey text).mp hnone with
        ⟨s, k, hsl, hs, hk, hk0, heq⟩
      rcases hbad with h | h | h
      · rw [hsl] at h
        simp [pyFalsyStr, List.isEmpty_iff] at h
        exact hs h
      · rw [hk] at h
        simp [pyFalsyStr, List.isEmpty_iff] at h
        exact hk0 h
      · rw [hsl, hk] at h
        simp only [Option.getD_some] at h
        exact h heq
    rcases hgate with h | ⟨r, hr⟩
    · exact absurd h hne
    constructor
    · intro v
      unfold safe_update
      simp only [if_true]
      split
      · simp
      · split
        · simp
        · split
          · simp
          · rw [hr]
            simp only
            intro hcontr
            have : r = UpdResult.updated v := hcontr
            rw [this] at hr
            exact signature_gate_ne_updated hmacHex novaKey text v hr
    · unfold safe_update
      simp only [if_true]
      split
      · rfl
      · split
        · rfl
        · split
          · rfl
          · rw [hr]

/-- A tampered-candidate demonstration text: declares version 99.0 and
carries a stale signature `abc` that no longer matches the HMAC of the
bytes. -/
def sigDemoText : PyStr :=
  "BN version: 99.0\nNova-Signature: abc\ndef main()".data

/-- Witness for C2: a concrete tampered candidate (declared version
above local) is rejected and installs nothing. -/
theorem C2_signature_gate_witness :
    (safe_update true (fun _ _ => "GOOD".data) (some "k".data)
        (some sigDemoText) "14.5".data .ok ⟨some ['O'], none⟩).1
      ≠ UpdResult.updated "99.0".data
  ∧ (safe_update true (fun _ _ => "GOOD".data) (some "k".data)
        (some sigDemoText) "14.5".data .ok ⟨some ['O'], none⟩).2
      = ⟨some ['O'], none⟩ := by
  have h := (C2_signature_gate (fun _ _ => "GOOD".data) (some "k".data)
    sigDemoText "14.5".data .ok ⟨some ['O'], none⟩).2
    (Or.inr (Or.inr (by decide)))
  exact ⟨h.1 "99.0".data, h.2⟩

/-- C7: a fetched candidate that passes format validation but declares
a version not strictly greater than the running one makes `safe_update`
return the up-to-date result, install nothing, and leave both the
installed artifact and the backup byte-identical; a repeated check
against the same remote therefore returns the same result again. -/
theorem C7_up_to_date (sigRequired : Bool) (hmacHex : PyStr → PyStr → PyStr)
    (novaKey : Option PyStr) (text currentVersion : PyStr)
    (fault : SwapFault) (fs : UpdFS)
    (hBN : containsSub verMarker text = true)
    (hMain : containsSub mainMarker text = true)
    (hver : parse_version text ≠ [])
    (hle : version_gt (parse_version text) currentVersion = false) :
    safe_update sigRequired hmacHex novaKey (some text) currentVersion fault fs
      = (.upToDate (parse_version text) currentVersion, fs)
  ∧ safe_update sigRequired hmacHex novaKey (some text) currentVersion fault
      (safe_update sigRequired hmacHex novaKey (some text) currentVersion fault fs).2
      = (.upToDate (parse_version text) currentVersion, fs) := by
  have h : safe_update sigRequired hmacHex novaKey (some text) currentVersion fault fs
      = (.upToDate (parse_version text) currentVersion, fs) := by
    unfold safe_update
    simp [hBN, hMain, List.isEmpty_iff, hver, hle]
  exact ⟨h, by rw [h]; exact h⟩

/-- An up-to-date demonstration candidate: a valid BN file declaring
the local version 14.5. -/
def upToDateDemoText : PyStr := "BN version: 14.5\ndef main()".data

/-- Witness for C7 at a concrete candidate equal to the local version. -/
theorem C7_up_to_date_witness :
    safe_update false (fun _ _ => []) none (some upToDateDemoText)
        "14.5".data .ok ⟨some ['O'], none⟩
      = (.upToDate "14.5".data "14.5".data, ⟨some ['O'], none⟩) := by
  have h := (C7_up_to_date false (fun _ _ => []) none upToDateDemoText
    "14.5".data .ok ⟨some ['O'], none⟩ (by decide) (by decide) (by decide)
    (by decide)).1
  rw [h]
  have : parse_version upToDateDemoText = "14.5".data := by decide
  rw [this]

/-- The file system seen by `Bn.py`'s `atomic_save_json`: the primary
path (`memory.json`) and the `mkstemp` temporary file in the same
directory. -/
structure SaveFS where
  primary : Option PyStr
  tmpFile : Option PyStr
deriving DecidableEq

/-- The file-system states of `atomic_save_json(data, path)` from
`Bn.py` before its `os.replace`: after `mkstemp` and after each
partially written prefix of the serialized document (the final prefix
being the full, flushed and `fsync`ed content).  A crash or failure at
any of these points lands in the `finally` cleanup, which only removes
the temporary file. -/
def atomicSavePending (fs : SaveFS) (content : PyStr) : List SaveFS :=
  { fs with tmpFile := some [] } ::
    (List.range (content.length + 1)).map
      (fun k => { fs with tmpFile := some (content.take k) })

/-- `atomic_save_json` as the full sequence of observable file-system
states: the pending states followed by the state after the atomic
`os.replace(tmp, path)`.  A reader of the primary path, or a crash at
any step, observes exactly one of these states. -/
def atomicSaveStates (fs : SaveFS) (content : PyStr) : List SaveFS :=
  atomicSavePending fs content ++ [{ primary := some content, tmpFile := none }]

/-- The file system seen by `bn.py`: just the primary path
(`bn_memory.json`). -/
structure BnFS where
  memPath : Option PyStr
deriving DecidableEq

/-- `save_memory` from `bn.py` as the sequence of primary-path states
observable during the write: `open(MEM_PATH, "w")` truncates the
primary file in place, then `json.dump` writes the serialized document
directly to it, so every prefix of the new content (starting with the
empty file) is an observable state of the primary path, and a failure
mid-write leaves such a prefix behind. -/
def directSaveStates (content : PyStr) : List BnFS :=
  (List.range (content.length + 1)).map
    (fun k => { memPath := some (content.take k) })

theorem mem_atomicSavePending_primary (fs : SaveFS) (content : PyStr)
    (st : SaveFS) (h : st ∈ atomicSavePending fs content) :
    st.primary = fs.primary := by
  simp only [atomicSavePending, List.mem_cons, List.mem_map,
    List.mem_range] at h
  rcases h with h | ⟨k, _, h⟩
  · subst h; rfl
  · rw [← h]

/-- C1 (amended to `Bn.py`'s save path): `atomic_save_json` writes the
document to a temporary file, flushes it, and atomically renames it
over the primary path; every observable state of the primary path is
either the previous content or the full new content, every state
before the final rename (hence after a failure at any step) leaves the
primary path untouched, and the final state holds the full new
content. -/
theorem C1_atomic_save (fs : SaveFS) (content : PyStr) :
    (∀ st, st ∈ atomicSaveStates fs content →
       st.primary = fs.primary ∨ st.primary = some content)
  ∧ (∀ st, st ∈ atomicSavePending fs content → st.primary = fs.primary)
  ∧ (atomicSaveStates fs content).getLast? =
      some { primary := some content, tmpFile := none } := by
  refine ⟨?_, mem_atomicSavePending_primary fs content, ?_⟩
  · intro st h
    simp only [atomicSaveStates, List.mem_append, List.mem_singleton] at h
    rcases h with h | h
    · exact Or.inl (mem_atomicSavePending_primary fs content st h)
    · right; rw [h]
  · unfold atomicSaveStates
    rw [List.getLast?_append]
    rfl

/-- Witness for C1's amended theorem at a concrete save of `"BB"` over
a primary file holding `"AA"`. -/
theorem C1_atomic_save_witness :
    ({ primary := some ['A', 'A'], tmpFile := some ['B'] } : SaveFS).primary
        = some ['A', 'A']
      ∨ ({ primary := some ['A', 'A'], tmpFile := some ['B'] } : SaveFS).primary
        = some ['B', 'B'] :=
  (C1_atomic_save ⟨some ['A', 'A'], none⟩ ['B', 'B']).1
    { primary := some ['A', 'A'], tmpFile := some ['B'] } (by decide)

/-- C1 counterexample: the claim quantifies over every save of the
state document, but `bn.py`'s `save_memory` writes directly to the
primary path.  Saving the new document `"BB"` over a primary file that
held `"AA"`, the second observable state of the write has the primary
path equal to `"B"` — neither the previous document nor the new one —
so a concurrent reader can observe a partial document and a failure at
that point leaves the primary path clobbered. -/
theorem C1_counterexample :
    (directSaveStates ['B', 'B']).get? 1 = some { memPath := some ['B'] }
  ∧ (some ['B'] ≠ (some ['A', 'A'] : Option PyStr))
  ∧ (some ['B'] ≠ (some ['B', 'B'] : Option PyStr)) := by decide

/-- The supervisor-visible dirty-tracking state of `Bn.py`: the
in-memory `_mem_dirty` flag and the primary file. -/
structure DirtyState where
  dirty : Bool
  primary : Option PyStr
deriving DecidableEq

/-- `mark_dirty` from `Bn.py`: sets `_mem_dirty` under `_mem_lock`. -/
def mark_dirty (st : DirtyState) : DirtyState := { st with dirty := true }

/-- One cycle of `Bn.py`'s `autosave_loop` after its sleep: read
`_mem_dirty` under `_mem_lock`, and only if dirty call `save_memory`
(which atomically saves the serialized document and clears the flag
under the same lock).  Returns the new state and whether a write to
the primary path occurred. -/
def autosave_cycle (st : DirtyState) (content : PyStr) : DirtyState × Bool :=
  if st.dirty then ({ dirty := false, primary := some content }, true)
  else (st, false)

/-- One cycle of `bn.py`'s `autosave_loop`: it calls `save_memory`
unconditionally; `save_memory` writes the serialized document to the
primary path whenever the memory is loaded (`_mem is not None`).
`bn.py` keeps no dirty flag at all. -/
def bn_autosave_cycle (memLoaded : Bool) (fs : BnFS) (content : PyStr) :
    BnFS × Bool :=
  if memLoaded then ({ memPath := some content }, true) else (fs, false)

/-- C9 (amended to `Bn.py`): mutations set the dirty flag under the
guard, the autosave cycle writes only when the flag is set (and clears
it), and a cycle that starts with the flag clear performs no write and
changes nothing. -/
theorem C9_dirty_autosave (st : DirtyState) (content : PyStr) :
    (mark_dirty st).dirty = true
  ∧ (st.dirty = false → autosave_cycle st content = (st, false))
  ∧ (st.dirty = true →
      (autosave_cycle st content).2 = true
      ∧ (autosave_cycle st content).1 = ⟨false, some content⟩) := by
  refine ⟨rfl, ?_, ?_⟩
  · intro h; simp [autosave_cycle, h]
  · intro h; simp [autosave_cycle, h]

/-- Witness for C9's amended theorem: a clean cycle at a concrete
state performs no write. -/
theorem C9_dirty_autosave_witness :
    autosave_cycle ⟨false, some ['A']⟩ ['B'] = (⟨false, some ['A']⟩, false) :=
  (C9_dirty_autosave ⟨false, some ['A']⟩ ['B']).2.1 rfl

/-- C9 counterexample: the claim quantifies over the periodic autosave
task, but `bn.py`'s autosave cycle performs a write to the primary
path even when no mutation has occurred since the last save (there is
no dirty flag to consult). -/
theorem C9_counterexample :
    bn_autosave_cycle true ⟨some ['A']⟩ ['A'] = (⟨some ['A']⟩, true) := by
  decide

/-! ## Loading and corruption recovery (`Bn.py`: `load_or_repair`;
`bn.py`: `load_memory`) -/

/-- The state-document fields the claims inspect.  `Bn.py`'s
`default_memory()` sets `death_count` to 0; the remaining fields
(identity, flags, caretaker program, …) play no role in any claim and
are omitted from the model. -/
structure MemDoc where
  death_count : Int
deriving DecidableEq

/-- `default_memory()` from `Bn.py` restricted to the modelled field. -/
def default_memory : MemDoc := { death_count := 0 }

/-- The document fields of `bn.py`'s `DEFAULT_MEM` the claims inspect
(`revision_count` starts at 0); the other keys are omitted as above. -/
structure BnMemDoc where
  revision_count : Int
deriving DecidableEq

/-- `DEFAULT_MEM` from `bn.py` restricted to the modelled field. -/
def DEFAULT_MEM : BnMemDoc := { revision_count := 0 }

/-- The file system seen by `Bn.py`'s loader: the primary path
(`memory.json`) and the quarantine location (the timestamped
`memory.json.corrupt.*` file; the model records the quarantined
content). -/
structure StateFS where
  memPath : Option PyStr
  quarantine : Option PyStr
deriving DecidableEq

/-- Helper for Python `t.rfind(c)`: the index of the last occurrence of
`c` (offset by the running index), `none` standing for `-1`. -/
def rfindCharAux (c : Char) : PyStr → Nat → Option Nat
  | [], _ => none
  | x :: xs, i =>
    match rfindCharAux c xs (i + 1) with
    | some j => some j
    | none => if x = c then some i else none

/-- Model of Python `t.rfind(c)`. -/
def rfindChar (c : Char) (t : PyStr) : Option Nat := rfindCharAux c t 0

/-- The closing-brace character `Char.ofNat 125` used by the repair. -/
def closingBrace : Char := Char.ofNat 125

/-- The truncate-to-last-closing-brace repair attempt of
`load_or_repair`: `i = t.rfind(brace); if i != -1: json.loads(t[:i+1])`,
where a parse failure inside the repair is swallowed. -/
def repair_parse (parse : PyStr → Option MemDoc) (t : PyStr) : Option MemDoc :=
  match rfindChar closingBrace t with
  | some i => parse (t.take (i + 1))
  | none => none

/-- `load_or_repair` from `Bn.py`, parameterized by the JSON parser
(`json.load`/`json.loads`, abstracted as a partial function from file
text to documents) and by whether the `os.replace` into quarantine
succeeds (`replaceOk`; its failure is swallowed by `except: pass`,
leaving the unreadable file at the primary path). -/
def load_or_repair (parse : PyStr → Option MemDoc) (replaceOk : Bool)
    (fs : StateFS) : MemDoc × StateFS :=
  match fs.memPath with
  | none => (default_memory, fs)
  | some t =>
    match parse t with
    | some d => (d, fs)
    | none =>
      match repair_parse parse t with
      | some d => (d, fs)
      | none =>
        if replaceOk then
          (default_memory, { memPath := none, quarantine := some t })
        else (default_memory, fs)

/-- `load_memory` from `bn.py`, parameterized by the JSON parser and
serializer (`json.dump`).  On a missing file it creates and saves the
default document.  On a parse failure it prints the error, resets the
in-memory document to the defaults and saves it — overwriting the
unreadable file at `MEM_PATH`; there is no repair attempt and no
quarantine.  On success the document is schema-patched with missing
defaults; the patch is the identity on the total document model used
here, and a patch-triggered re-save rewrites the same document. -/
def load_memory (parse : PyStr → Option BnMemDoc)
    (serialize : BnMemDoc → PyStr) (fs : BnFS) : BnMemDoc × BnFS :=
  match fs.memPath with
  | none => (DEFAULT_MEM, { memPath := some (serialize DEFAULT_MEM) })
  | some t =>
    match parse t with
    | some d => (d, fs)
    | none => (DEFAULT_MEM, { memPath := some (serialize DEFAULT_MEM) })

/-- C8 (amended to `Bn.py`'s loader): for every state-file content
`load_or_repair` returns a document; a parsable file is returned with
the file system untouched; a file whose truncate-to-last-closing-brace
repair parses is recovered with the file system untouched; when both
parses fail the loader returns the fresh default document and the
original content survives — either moved whole into quarantine or (if
the move itself fails) still at the primary path — never deleted or
overwritten. -/
theorem C8_load_or_repair (parse : PyStr → Option MemDoc) (replaceOk : Bool)
    (fs : StateFS) :
    (∀ t, fs.memPath = some t →
      ((load_or_repair parse replaceOk fs).2.memPath = some t
        ∨ ((load_or_repair parse replaceOk fs).2.quarantine = some t
            ∧ (load_or_repair parse replaceOk fs).2.memPath = none)))
  ∧ (∀ t d, fs.memPath = some t → parse t = some d →
      load_or_repair parse replaceOk fs = (d, fs))
  ∧ (∀ t d, fs.memPath = some t → parse t = none →
      repair_parse parse t = some d →
      load_or_repair parse replaceOk fs = (d, fs))
  ∧ (∀ t, fs.memPath = some t → parse t = none →
      repair_parse parse t = none →
      (load_or_repair parse replaceOk fs).1 = default_memory)
  ∧ (fs.memPath = none →
      load_or_repair parse replaceOk fs = (default_memory, fs)) := by
  refine ⟨?_, ?_, ?_, ?_, ?_⟩
  · intro t ht
    simp only [load_or_repair, ht]
    cases hp : parse t with
    | some d => exact Or.inl ht
    | none =>
      simp only
      cases hr : repair_parse parse t with
      | some d => exact Or.inl ht
      | none =>
        by_cases hok : replaceOk = true
        · simp [hok]
        · simp only [Bool.not_eq_true] at hok
          simp [hok, ht]
  · intro t d ht hp
    simp only [load_or_repair, ht, hp]
  · intro t d ht hp hr
    simp only [load_or_repair, ht, hp, hr]
  · intro t ht hp hr
    simp only [load_or_repair, ht, hp, hr]
    by_cases hok : replaceOk = true
    · simp [hok]
    · simp only [Bool.not_eq_true] at hok
      simp [hok]
  · intro h
    simp only [load_or_repair, h]

/-- A parser standing in for `json.loads` in the witness: it fails on
the corrupt text `"xy"` and on its (brace-free) truncations, exactly as
`json.loads` does. -/
def demoParseFail : PyStr → Option MemDoc := fun _ => none

/-- Witness for C8's amended theorem: loading a concrete corrupt,
brace-free file returns the default document and quarantines the
original content whole. -/
theorem C8_load_or_repair_witness :
    ((load_or_repair demoParseFail true ⟨some ['x', 'y'], none⟩).2.memPath
        = some ['x', 'y']
      ∨ ((load_or_repair demoParseFail true ⟨some ['x', 'y'], none⟩).2.quarantine
            = some ['x', 'y']
          ∧ (load_or_repair demoParseFail true ⟨some ['x', 'y'], none⟩).2.memPath
            = none))
  ∧ (load_or_repair demoParseFail true ⟨some ['x', 'y'], none⟩).1
      = default_memory :=
  ⟨(C8_load_or_repair demoParseFail true ⟨some ['x', 'y'], none⟩).1
      ['x', 'y'] rfl,
    (C8_load_or_repair demoParseFail true ⟨some ['x', 'y'], none⟩).2.2.2.1
      ['x', 'y'] rfl rfl rfl⟩

/-- C8 counterexample: the claim covers every load of the state
document, but `bn.py`'s `load_memory` on a parse failure neither
repairs nor quarantines: it saves the default document over the
primary path, so the corrupt original (here the non-JSON text `"hi"`,
on which `json.loads` raises) is overwritten and lost.  The serializer
argument stands in for `json.dump` of the default document, whose
output is a JSON object and in particular differs from the corrupt
original. -/
theorem C8_counterexample :
    load_memory (fun _ => none) (fun _ => ['d']) ⟨some ['h', 'i']⟩
      = (DEFAULT_MEM, ⟨some ['d']⟩)
  ∧ (some ['d'] ≠ (some ['h', 'i'] : Option PyStr)) := by decide

/-! ## Lock lifecycle (`Bn.py`: `cleanup_stale_lock`, `write_lock`,
`remove_lock`, and the acquisition prelude of `main`) -/

/-- The lock file (`bn.lock`): `none` when absent, else its text. -/
structure LockFS where
  lock : Option PyStr
deriving DecidableEq

/-- The recorded pid of a lock file:
`int((f.read().strip().split("|") or ["0"])[0])`, with `none` when the
conversion raises (`split` never yields an empty list, so the
`or ["0"]` fallback is dead). -/
def parse_lock_pid (s : PyStr) : Option Int :=
  pyInt ((splitOnChar '|' (trimWs s)).headD ['0'])

/-- `cleanup_stale_lock` from `Bn.py`, parameterized by the liveness
probe: `alive pid` is true exactly when `os.kill(pid, 0)` does not
raise.  An unparsable pid leaves `old_pid = None`, so `os.kill(None,
0)` raises `TypeError` and lands in the same handler as a dead pid:
the lock is removed and `True` returned.  The result's boolean is the
function's return value (`True`: stale or absent, caller goes on and
counts a death; `False`: a live holder was found, lock left in
place). -/
def cleanup_stale_lock (alive : Int → Bool) (fs : LockFS) : Bool × LockFS :=
  match fs.lock with
  | none => (true, fs)
  | some s =>
    match parse_lock_pid s with
    | none => (true, { lock := none })
    | some pid =>
      if alive pid then (false, fs)
      else (true, { lock := none })

/-- The boot-time state the acquisition prelude of `main()` touches:
the lock file and the in-memory document's `death_count`. -/
structure BootState where
  fs : LockFS
  death_count : Int
deriving DecidableEq

/-- The lock-acquisition prelude of `main()` in `Bn.py`:
`stale = cleanup_stale_lock()`, increment `death_count` when `stale`,
then `write_lock()` — executed unconditionally, with `selfLine` the new
record `f"{os.getpid()}|{utc_iso()}"`.  `main` has no exit path here:
whatever the probe found, it writes its own lock and continues to start
the workers. -/
def acquire (alive : Int → Bool) (selfLine : PyStr) (st : BootState) :
    BootState :=
  let r := cleanup_stale_lock alive st.fs
  { fs := { lock := some selfLine },
    death_count := if r.1 then st.death_count + 1 else st.death_count }

/-- C3 evaluated at its failing input: a lock file recorded by the live
process 42.  The claim requires acquisition to fail fast, leave the
lock untouched and not run alongside the holder; the code instead
returns from `cleanup_stale_lock` with `False`, skips only the death
increment, overwrites the lock with its own record and proceeds to
start — `acquire` is a total function with no refusal branch. -/
theorem C3_live_holder_not_fail_fast :
    acquire (fun p => decide (p = 42)) "7|t1".data
        ⟨⟨some "42|t0".data⟩, 5⟩
      = ⟨⟨some "7|t1".data⟩, 5⟩
  ∧ (some "7|t1".data ≠ (some "42|t0".data : Option PyStr)) := by decide

/-- C4 counterexample: on a first boot with no lock file present,
`cleanup_stale_lock` returns `True`, so acquisition increments the
death counter from 0 to 1 rather than leaving it unchanged; after a
crash (no `release()`), the next boot's acquisition over the dead
holder's lock brings the counter to 2, not 1 as the claim's end-to-end
scenario requires. -/
theorem C4_counterexample :
    (acquire (fun _ => false) "7|t1".data ⟨⟨none⟩, 0⟩).death_count = 1
  ∧ (acquire (fun _ => false) "9|t2".data
        (acquire (fun _ => false) "7|t1".data ⟨⟨none⟩, 0⟩)).death_count = 2 := by
  decide

/-- C4 (amended): acquisition with no lock file present writes a fresh
lock and increments the death counter by exactly 1 (the code counts
every boot without a live lock holder as a death, including the first);
acquisition over a lock whose recorded pid is confirmed dead removes
the stale lock, writes a fresh one and also increments by exactly 1;
hence a fresh boot starting from counter 0 ends at 1, and a crash
followed by a reboot over the dead holder's lock ends at 2. -/
theorem C4_acquire_deaths (alive : Int → Bool) (selfLine : PyStr)
    (st : BootState) (p : Int) :
    (st.fs.lock = none →
      acquire alive selfLine st
        = ⟨⟨some selfLine⟩, st.death_count + 1⟩)
  ∧ (∀ s, st.fs.lock = some s → parse_lock_pid s = some p →
      alive p = false →
      (cleanup_stale_lock alive st.fs = (true, ⟨none⟩)
        ∧ acquire alive selfLine st
            = ⟨⟨some selfLine⟩, st.death_count + 1⟩))
  ∧ (st.fs.lock = none → st.death_count = 0 →
      parse_lock_pid selfLine = some p → alive p = false →
      (acquire alive selfLine (acquire alive selfLine st)).death_count = 2) := by
  refine ⟨?_, ?_, ?_⟩
  · intro h
    simp [acquire, cleanup_stale_lock, h]
  · intro s hs hp hdead
    have hc : cleanup_stale_lock alive st.fs = (true, ⟨none⟩) := by
      simp [cleanup_stale_lock, hs, hp, hdead]
    exact ⟨hc, by simp [acquire, hc]⟩
  · intro h h0 hp hdead
    have h1 : acquire alive selfLine st = ⟨⟨some selfLine⟩, st.death_count + 1⟩ := by
      simp [acquire, cleanup_stale_lock, h]
    have hc : cleanup_stale_lock alive ⟨some selfLine⟩ = (true, ⟨none⟩) := by
      simp [cleanup_stale_lock, hp, hdead]
    rw [h1]
    simp [acquire, hc, h0]

/-- Witness for C4's amended theorem: fresh boot then crash-reboot at
concrete inputs (`"7|t1"` parses to the dead pid 7). -/
theorem C4_acquire_deaths_witness :
    acquire (fun _ => false) "7|t1".data ⟨⟨none⟩, 0⟩
      = ⟨⟨some "7|t1".data⟩, 1⟩
  ∧ (acquire (fun _ => false) "7|t1".data
      (acquire (fun _ => false) "7|t1".data ⟨⟨none⟩, 0⟩)).death_count = 2 :=
  ⟨(C4_acquire_deaths (fun _ => false) "7|t1".data ⟨⟨none⟩, 0⟩ 7).1 rfl,
    (C4_acquire_deaths (fun _ => false) "7|t1".data ⟨⟨none⟩, 0⟩ 7).2.2 rfl rfl
      (by decide) rfl⟩

/-- C10: a lock file whose contents cannot be parsed into a process id
is treated as stale, not as an error: `cleanup_stale_lock` removes it
and returns `True`, so the boot proceeds, writes a fresh lock and
counts the takeover as a death — an unreadable lock never blocks the
new process. -/
theorem C10_unreadable_lock (alive : Int → Bool) (selfLine s : PyStr)
    (st : BootState) (hs : st.fs.lock = some s)
    (hbad : parse_lock_pid s = none) :
    cleanup_stale_lock alive st.fs = (true, ⟨none⟩)
  ∧ acquire alive selfLine st
      = ⟨⟨some selfLine⟩, st.death_count + 1⟩ := by
  have hc : cleanup_stale_lock alive st.fs = (true, ⟨none⟩) := by
    simp [cleanup_stale_lock, hs, hbad]
  exact ⟨hc, by simp [acquire, hc]⟩

/-- Witness for C10 at a concrete garbled lock file. -/
theorem C10_unreadable_lock_witness :
    cleanup_stale_lock (fun _ => true) ⟨some "garbage".data⟩ = (true, ⟨none⟩)
  ∧ acquire (fun _ => true) "7|t1".data ⟨⟨some "garbage".data⟩, 3⟩
      = ⟨⟨some "7|t1".data⟩, 4⟩ :=
  C10_unreadable_lock (fun _ => true) "7|t1".data "garbage".data
    ⟨⟨some "garbage".data⟩, 3⟩ rfl (by decide)

end BN
